import Mathlib

/-!
# AzerothCore excerpts: flight-path / waypoint generators, Nagrand arena, chat helper

Shallow embedding of

* `src/server/game/Movement/MovementGenerators/WaypointMovementGenerator.h`
* `src/server/game/Battlegrounds/Zones/BattlegroundNA.cpp`
* `src/server/game/Chat/ChatCommands/ChatCommandHelpers.cpp`

Conventions.

* A C++ `uint32` is a `Nat`; arithmetic that can overflow is reduced `% 2 ^ 32`.
  An `int32` is an `Int`.
* A `float` is a `ℚ`; a float literal of the source is the rational its decimal
  text denotes (binary32 rounding is not modelled; no arithmetic is done on them).
* A `std::vector` / `std::deque` is a `List`.
* A method that mutates `*this` is a function from the old object to the new one.
  Calls that leave the object (events fired, teleports issued, objects spawned)
  are returned next to the new state as a list, in call order.
-/

namespace Acore

/-! ## WaypointMovementGenerator.h -/

/-- Source: `#define FLIGHT_TRAVEL_UPDATE  100` (milliseconds). -/
def FLIGHT_TRAVEL_UPDATE : Nat := 100

/-- Source: `#define TIMEDIFF_NEXT_WP      250` (milliseconds). -/
def TIMEDIFF_NEXT_WP : Nat := 250

/-- Number of values of the C++ type `uint32`. -/
def UINT32_MOD : Nat := 2 ^ 32

/-- Template class `PathMovementBase<T, P>`: the bound path and the index of the current node. -/
structure PathMovementBase (P : Type) where
  i_path : P
  i_currentNode : Nat
deriving DecidableEq, Repr

namespace PathMovementBase

/-- Constructor `PathMovementBase() : i_path(), i_currentNode(0) {}`; `dflt` is the
value-initialised `P()`. -/
def mk0 {P : Type} (dflt : P) : PathMovementBase P :=
  { i_path := dflt, i_currentNode := 0 }

/-- Constructor `PathMovementBase(P path) : i_path(path), i_currentNode(0) {}`. -/
def ofPath {P : Type} (path : P) : PathMovementBase P :=
  { i_path := path, i_currentNode := 0 }

/-- Source: `uint32 GetCurrentNode() const { return i_currentNode; }`. -/
def GetCurrentNode {P : Type} (b : PathMovementBase P) : Nat :=
  b.i_currentNode

end PathMovementBase

/-- Source: `struct TaxiNodeChangeInfo { uint32 PathIndex; int32 Cost; };`. -/
structure TaxiNodeChangeInfo where
  PathIndex : Nat
  Cost : Int
deriving DecidableEq, Repr

/-- The type `TaxiPathNodeList` is a `std::vector` of taxi nodes; the node type
(`TaxiPathNodeEntry const*`) is declared outside the sources and is a parameter. -/
abbrev TaxiPathNodeList (Node : Type) : Type := List Node

/-- Class `FlightPathMovementGenerator : ..., public PathMovementBase<Player, TaxiPathNodeList>`
with its private members. -/
structure FlightPathMovementGenerator (Node : Type) extends
    PathMovementBase (TaxiPathNodeList Node) where
  _endGridX : ℚ
  _endGridY : ℚ
  _endMapId : Nat
  _preloadTargetNode : Nat
  _pointsForPathSwitch : List TaxiNodeChangeInfo

/-- A call `DoEventIfAny(player, node, departure)` made by the generator. -/
structure NodeEvent (Node : Type) where
  node : Node
  departure : Bool

namespace FlightPathMovementGenerator

variable {Node : Type}

/-- The constructor
```
explicit FlightPathMovementGenerator(uint32 startNode = 0)
{
    i_currentNode = startNode;
    _endGridX = 0.0f;
    _endGridY = 0.0f;
    _endMapId = 0;
    _preloadTargetNode = 0;
}
```
The base sub-object is built by `PathMovementBase()` (empty vector, node 0) and
the deque member is default-constructed (empty) before the body runs. -/
def new (startNode : Nat) : FlightPathMovementGenerator Node :=
  let base : PathMovementBase (TaxiPathNodeList Node) := PathMovementBase.mk0 []
  { i_path := base.i_path
    i_currentNode := startNode
    _endGridX := 0
    _endGridY := 0
    _endMapId := 0
    _preloadTargetNode := 0
    _pointsForPathSwitch := [] }

/-- Source: `TaxiPathNodeList const& GetPath() { return i_path; }`. -/
def GetPath (g : FlightPathMovementGenerator Node) : TaxiPathNodeList Node :=
  g.i_path

/-- Method `uint32 GetCurrentNode() const`, inherited from `PathMovementBase`. -/
def GetCurrentNode (g : FlightPathMovementGenerator Node) : Nat :=
  g.toPathMovementBase.GetCurrentNode

/-- Source: `bool HasArrived() const { return (i_currentNode >= i_path.size()); }`. -/
def HasArrived (g : FlightPathMovementGenerator Node) : Bool :=
  decide (g.i_currentNode ≥ g.i_path.length)

/-- Source: `void SkipCurrentNode() { ++i_currentNode; }`. Returns the new object and the
`DoEventIfAny` calls made by the body (there are none). The increment is that of
a `uint32`. -/
def SkipCurrentNode (g : FlightPathMovementGenerator Node) :
    FlightPathMovementGenerator Node × List (NodeEvent Node) :=
  ({ g with i_currentNode := (g.i_currentNode + 1) % UINT32_MOD }, [])

/-- The state invariant as the specification words it:
`0 ≤ current_node ≤ path.size()`. -/
def NodeIndexInvariant (g : FlightPathMovementGenerator Node) : Prop :=
  0 ≤ g.i_currentNode ∧ g.i_currentNode ≤ g.i_path.length

instance (g : FlightPathMovementGenerator Node) : Decidable (NodeIndexInvariant g) := by
  unfold NodeIndexInvariant; exact inferInstance

/-- A concrete state for examples: current node `c` on the path `path`, the other
members as the constructor leaves them. -/
def sample (c : Nat) (path : List Nat) : FlightPathMovementGenerator Nat :=
  { (new c : FlightPathMovementGenerator Nat) with i_path := path }

end FlightPathMovementGenerator

/-- Modelled from the spec: the class `TimeTrackerSmall` of the next-move timer, whose
declaration (`Timer.h`) is outside the sources. The specification describes the timer
as "milliseconds until the generator is allowed to act again; 0 means ready" and
forbids a submission "while `next_move_timer > 0`": the tracker holds a signed
millisecond count, `Reset` stores a new count and `Passed` says the count is not
positive. -/
structure TimeTrackerSmall where
  i_expiryTime : Int
deriving DecidableEq, Repr

namespace TimeTrackerSmall

/-- Modelled from the spec: the call `Reset(interval)` stores the interval as the new count. -/
def Reset (_t : TimeTrackerSmall) (interval : Int) : TimeTrackerSmall :=
  { i_expiryTime := interval }

/-- Modelled from the spec: the query `Passed()`, true when the count is not positive
("0 means ready"). -/
def Passed (t : TimeTrackerSmall) : Bool :=
  decide (t.i_expiryTime ≤ 0)

end TimeTrackerSmall

/-- Class `WaypointMovementGenerator<Creature> : ..., public PathMovementBase<Creature,
WaypointPath const*>` with its private members. The path pointer is an `Option`
(`nullptr` is `none`); the pointee type `WaypointPath` is a parameter. -/
structure WaypointMovementGenerator (WaypointPath : Type) extends
    PathMovementBase (Option WaypointPath) where
  i_nextMoveTime : TimeTrackerSmall
  m_isArrivalDone : Bool
  path_id : Nat
  repeating : Bool
  stalled : Bool

/-- What `StartMoveNow` leaves behind: the generator and the creature after the call,
and the `StartMove(creature)` calls it made, each with the generator (`*this`) and
the creature as they were when `StartMove` was entered. -/
structure StartMoveNowResult (WaypointPath Creature : Type) where
  gen : WaypointMovementGenerator WaypointPath
  creature : Creature
  startMoveCalls : List (WaypointMovementGenerator WaypointPath × Creature)

namespace WaypointMovementGenerator

variable {WaypointPath Creature : Type}

/-- The constructor
```
WaypointMovementGenerator(uint32 _path_id = 0, bool _repeating = true, bool _stalled = false)
    : PathMovementBase((WaypointPath const*)nullptr), i_nextMoveTime(0), m_isArrivalDone(false),
      path_id(_path_id), repeating(_repeating), stalled(_stalled)  {}
```
-/
def new (_path_id : Nat) (_repeating : Bool) (_stalled : Bool) :
    WaypointMovementGenerator WaypointPath :=
  { toPathMovementBase := PathMovementBase.ofPath none
    i_nextMoveTime := { i_expiryTime := 0 }
    m_isArrivalDone := false
    path_id := _path_id
    repeating := _repeating
    stalled := _stalled }

/-- Source: `void Stop(int32 time) { i_nextMoveTime.Reset(time);}`. -/
def Stop (g : WaypointMovementGenerator WaypointPath) (time : Int) :
    WaypointMovementGenerator WaypointPath :=
  { g with i_nextMoveTime := g.i_nextMoveTime.Reset time }

/-- Source: `bool Stopped() { return !i_nextMoveTime.Passed();}`. -/
def Stopped (g : WaypointMovementGenerator WaypointPath) : Bool :=
  !g.i_nextMoveTime.Passed

/-- The method
```
void StartMoveNow(Creature* creature)
{
    i_nextMoveTime.Reset(0);
    StartMove(creature);
}
```
The member `StartMove` is only declared in the header; its body is the parameter
`StartMove`, which may change the generator and the creature and returns a `bool`
that `StartMoveNow` discards. -/
def StartMoveNow
    (StartMove : WaypointMovementGenerator WaypointPath → Creature →
      WaypointMovementGenerator WaypointPath × Creature × Bool)
    (g : WaypointMovementGenerator WaypointPath) (creature : Creature) :
    StartMoveNowResult WaypointPath Creature :=
  let g1 := { g with i_nextMoveTime := g.i_nextMoveTime.Reset 0 }
  let r := StartMove g1 creature
  { gen := r.1, creature := r.2.1, startMoveCalls := [(g1, creature)] }

end WaypointMovementGenerator

/-! ## ChatCommandHelpers.cpp -/

/-- The members of `ChatHandler` that the helper calls. The class is declared in
`Chat.h`, outside the sources: the method bodies are parameters. `HasSentErrorMessage` reads the flag that `SetSentErrorMessage` writes. -/
structure ChatHandlerMethods (Handler : Type) where
  SendSysMessage : Handler → String → Handler
  SetSentErrorMessage : Handler → Bool → Handler
  HasSentErrorMessage : Handler → Bool

/-- A call made on the handler. -/
inductive ChatHandlerCall where
  | SendSysMessage (str : String)
  | SetSentErrorMessage (val : Bool)
deriving DecidableEq, Repr

/-- The function
```
void Acore::Impl::ChatCommands::SendErrorMessageToHandler(ChatHandler* handler, std::string_view str)
{
    handler->SendSysMessage(str);
    handler->SetSentErrorMessage(true);
}
```
Returns the handler after the two calls and the calls made on it, in order. -/
def SendErrorMessageToHandler {Handler : Type} (m : ChatHandlerMethods Handler)
    (handler : Handler) (str : String) : Handler × List ChatHandlerCall :=
  let h1 := m.SendSysMessage handler str
  let h2 := m.SetSentErrorMessage h1 true
  (h2, [ChatHandlerCall.SendSysMessage str, ChatHandlerCall.SetSentErrorMessage true])

/-- A handler that keeps what it is sent: the system messages received, oldest
first, and the sent-error-message flag. -/
structure RecordingHandler where
  sysMessages : List String
  sentErrorMessage : Bool
deriving DecidableEq, Repr

/-- The methods of `RecordingHandler`. -/
def recordingMethods : ChatHandlerMethods RecordingHandler :=
  { SendSysMessage := fun h s => { h with sysMessages := h.sysMessages ++ [s] }
    SetSentErrorMessage := fun h b => { h with sentErrorMessage := b }
    HasSentErrorMessage := fun h => h.sentErrorMessage }

/-! ## BattlegroundNA.cpp -/

/-- An element of `InitWorldStates::Worldstates` as `emplace_back(variableID, value)`
builds it. The world-state keys are declared in `WorldStateDefines.h`, outside the
sources: the key type is a parameter. -/
structure WorldStateInfo (Key : Type) where
  VariableID : Key
  Value : Int
deriving DecidableEq, Repr

/-- The packet `WorldPackets::WorldState::InitWorldStates`; the arena touches only its
member `Worldstates`. -/
structure InitWorldStates (Key : Type) where
  Worldstates : List (WorldStateInfo Key)
deriving DecidableEq, Repr

/-- The part of `Player` that the arena reads: the value of `GetOrientation()`. -/
structure Player where
  orientation : ℚ
deriving DecidableEq, Repr

/-- A call `player->NearTeleportTo(x, y, z, orientation)`. -/
structure NearTeleportTo where
  x : ℚ
  y : ℚ
  z : ℚ
  orientation : ℚ
deriving DecidableEq, Repr

/-- The object slots of the arena (`BG_NA_OBJECT_*`, enumerators of `BattlegroundNA.h`,
outside the sources; only their names are used). -/
inductive BattlegroundNAObjectTypes where
  | BG_NA_OBJECT_DOOR_1
  | BG_NA_OBJECT_DOOR_2
  | BG_NA_OBJECT_DOOR_3
  | BG_NA_OBJECT_DOOR_4
  | BG_NA_OBJECT_BUFF_1
  | BG_NA_OBJECT_BUFF_2
  | BG_NA_OBJECT_READY_MARKER_1
  | BG_NA_OBJECT_READY_MARKER_2
deriving DecidableEq, Repr

/-- The game-object entries spawned by the arena (`BG_NA_OBJECT_TYPE_*` of
`BattlegroundNA.h` and `ARENA_READY_MARKER_ENTRY`, outside the sources; only their
names are used). -/
inductive BattlegroundNAObjects where
  | BG_NA_OBJECT_TYPE_DOOR_1
  | BG_NA_OBJECT_TYPE_DOOR_2
  | BG_NA_OBJECT_TYPE_DOOR_3
  | BG_NA_OBJECT_TYPE_DOOR_4
  | BG_NA_OBJECT_TYPE_BUFF_1
  | BG_NA_OBJECT_TYPE_BUFF_2
  | ARENA_READY_MARKER_ENTRY
deriving DecidableEq, Repr

/-- The last argument of `AddObject`: the named constant `RESPAWN_IMMEDIATELY`
(declared outside the sources) or a literal number of seconds. -/
inductive RespawnTime where
  | RESPAWN_IMMEDIATELY
  | seconds (n : Nat)
deriving DecidableEq, Repr

/-- The arguments of a call
`AddObject(type, entry, x, y, z, o, rotation0, rotation1, rotation2, rotation3, respawnTime)`. -/
structure AddObjectArgs where
  type : BattlegroundNAObjectTypes
  entry : BattlegroundNAObjects
  x : ℚ
  y : ℚ
  z : ℚ
  o : ℚ
  rotation0 : ℚ
  rotation1 : ℚ
  rotation2 : ℚ
  rotation3 : ℚ
  respawnTime : RespawnTime
deriving DecidableEq, Repr

/-- State threaded through `SetupBattleground`: the battleground as `AddObject` sees
and changes it, the `AddObject` calls made so far with what each returned, and the
messages passed to `LOG_ERROR`. -/
structure SetupState (BG : Type) where
  bg : BG
  attempts : List (AddObjectArgs × Bool)
  errors : List String

/-- A condition with side effects: run on a state, it yields its value and the new state. -/
abbrev Cond (BG : Type) : Type := SetupState BG → Bool × SetupState BG

namespace BattlegroundNA

open BattlegroundNAObjectTypes BattlegroundNAObjects RespawnTime

/-- The method
```
void BattlegroundNA::HandleAreaTrigger(Player* player, uint32 trigger)
{
    if (GetStatus() != STATUS_IN_PROGRESS)
        return;

    switch (trigger)
    {
        case 4536:                                          // buff trigger?
        case 4537:                                          // buff trigger?
            break;
        // OUTSIDE OF ARENA, TELEPORT!
        case 4917:
        case 5006:
        case 5008:
            player->NearTeleportTo(4054.15f, 2923.7f, 13.4f, player->GetOrientation());
            break;
    }
}
```
The status enumeration is declared outside the sources: its type and the enumerator
`STATUS_IN_PROGRESS` are parameters, `status` is what `GetStatus()` returns. The
result lists the `NearTeleportTo` calls made on the player. -/
def HandleAreaTrigger {Status : Type} [DecidableEq Status] (STATUS_IN_PROGRESS : Status)
    (status : Status) (player : Player) (trigger : Nat) : List NearTeleportTo :=
  if status ≠ STATUS_IN_PROGRESS then
    []
  else
    match trigger with
    | 4536 => []
    | 4537 => []
    | 4917 => [{ x := 4054.15, y := 2923.7, z := 13.4, orientation := player.orientation }]
    | 5006 => [{ x := 4054.15, y := 2923.7, z := 13.4, orientation := player.orientation }]
    | 5008 => [{ x := 4054.15, y := 2923.7, z := 13.4, orientation := player.orientation }]
    | _ => []

/-- The method
```
void BattlegroundNA::FillInitialWorldStates(WorldPackets::WorldState::InitWorldStates& packet)
{
    packet.Worldstates.emplace_back(WORLD_STATE_BATTLEGROUND_NA_ARENA_SHOW, 1);
    Arena::FillInitialWorldStates(packet);
}
```
The key `WORLD_STATE_BATTLEGROUND_NA_ARENA_SHOW` and the parent method
`Arena::FillInitialWorldStates` are defined outside the sources and are parameters. -/
def FillInitialWorldStates {Key : Type} (WORLD_STATE_BATTLEGROUND_NA_ARENA_SHOW : Key)
    (Arena_FillInitialWorldStates : InitWorldStates Key → InitWorldStates Key)
    (packet : InitWorldStates Key) : InitWorldStates Key :=
  let packet1 : InitWorldStates Key :=
    { packet with Worldstates := packet.Worldstates ++
        [{ VariableID := WORLD_STATE_BATTLEGROUND_NA_ARENA_SHOW, Value := 1 }] }
  Arena_FillInitialWorldStates packet1

/-- First `AddObject` call of `SetupBattleground`. -/
def door1 : AddObjectArgs :=
  ⟨BG_NA_OBJECT_DOOR_1, BG_NA_OBJECT_TYPE_DOOR_1, 4031.854, 2966.833, 12.0462, -2.648788,
    0, 0, 0.9697962, -0.2439165, RESPAWN_IMMEDIATELY⟩

/-- Second `AddObject` call of `SetupBattleground`. -/
def door2 : AddObjectArgs :=
  ⟨BG_NA_OBJECT_DOOR_2, BG_NA_OBJECT_TYPE_DOOR_2, 4081.179, 2874.97, 12.00171, 0.4928045,
    0, 0, 0.2439165, 0.9697962, RESPAWN_IMMEDIATELY⟩

/-- Third `AddObject` call of `SetupBattleground`. -/
def door3 : AddObjectArgs :=
  ⟨BG_NA_OBJECT_DOOR_3, BG_NA_OBJECT_TYPE_DOOR_3, 4023.709, 2981.777, 10.70117, -2.648788,
    0, 0, 0.9697962, -0.2439165, RESPAWN_IMMEDIATELY⟩

/-- Fourth `AddObject` call of `SetupBattleground`. -/
def door4 : AddObjectArgs :=
  ⟨BG_NA_OBJECT_DOOR_4, BG_NA_OBJECT_TYPE_DOOR_4, 4090.064, 2858.438, 10.23631, 0.4928045,
    0, 0, 0.2439165, 0.9697962, RESPAWN_IMMEDIATELY⟩

/-- Fifth `AddObject` call of `SetupBattleground`. -/
def buff1 : AddObjectArgs :=
  ⟨BG_NA_OBJECT_BUFF_1, BG_NA_OBJECT_TYPE_BUFF_1, 4009.189941, 2895.250000, 13.052700,
    -1.448624, 0, 0, 0.6626201, -0.7489557, seconds 120⟩

/-- Sixth `AddObject` call of `SetupBattleground`. -/
def buff2 : AddObjectArgs :=
  ⟨BG_NA_OBJECT_BUFF_2, BG_NA_OBJECT_TYPE_BUFF_2, 4103.330078, 2946.350098, 13.051300,
    -0.06981307, 0, 0, 0.03489945, -0.9993908, seconds 120⟩

/-- Seventh `AddObject` call of `SetupBattleground`. -/
def readyMarker1 : AddObjectArgs :=
  ⟨BG_NA_OBJECT_READY_MARKER_1, ARENA_READY_MARKER_ENTRY, 4090.46, 2875.43, 12.16,
    0.0, 0.0, 0.0, 0.0, 0.0, seconds 300⟩

/-- Eighth `AddObject` call of `SetupBattleground`. -/
def readyMarker2 : AddObjectArgs :=
  ⟨BG_NA_OBJECT_READY_MARKER_2, ARENA_READY_MARKER_ENTRY, 4022.82, 2966.61, 12.17,
    0.0, 0.0, 0.0, 0.0, 0.0, seconds 300⟩

variable {BG : Type}

/-- The operand `!AddObject(...)`: calls `AddObject` on the battleground, records the
call and what it returned, and yields the negated result. `AddObject` is a member of
the parent class, defined outside the sources: a parameter that may change the
battleground. -/
def notAddObject (AddObject : BG → AddObjectArgs → BG × Bool) (args : AddObjectArgs) :
    Cond BG :=
  fun s =>
    let r := AddObject s.bg args
    (!r.2, { bg := r.1, attempts := s.attempts ++ [(args, r.2)], errors := s.errors })

/-- The C++ operator `a || b`: `a` is evaluated first, and `b` only when `a` is false. -/
def scOr (a b : Cond BG) : Cond BG :=
  fun s =>
    let r := a s
    if r.1 then r else b r.2

/-- The method
```
bool BattlegroundNA::SetupBattleground()
{
    if (!AddObject(BG_NA_OBJECT_DOOR_1, ...) || !AddObject(BG_NA_OBJECT_DOOR_2, ...)
            || !AddObject(BG_NA_OBJECT_DOOR_3, ...) || !AddObject(BG_NA_OBJECT_DOOR_4, ...)
            || !AddObject(BG_NA_OBJECT_BUFF_1, ...) || !AddObject(BG_NA_OBJECT_BUFF_2, ...)
            || !AddObject(BG_NA_OBJECT_READY_MARKER_1, ...)
            || !AddObject(BG_NA_OBJECT_READY_MARKER_2, ...))
    {
        LOG_ERROR("sql.sql", "BatteGroundNA: Failed to spawn some object!");
        return false;
    }

    return true;
}
```
The operator `||` groups to the left. Returns the value returned and the state left
behind (battleground, calls made, errors logged). -/
def SetupBattleground (AddObject : BG → AddObjectArgs → BG × Bool) (bg : BG) :
    Bool × SetupState BG :=
  let n := notAddObject AddObject
  let r := scOr (scOr (scOr (scOr (scOr (scOr (scOr (n door1) (n door2)) (n door3)) (n door4))
    (n buff1)) (n buff2)) (n readyMarker1)) (n readyMarker2)
    { bg := bg, attempts := [], errors := [] }
  if r.1 then
    (false, { r.2 with errors := r.2.errors ++ ["BatteGroundNA: Failed to spawn some object!"] })
  else
    (true, r.2)

/-- The eight objects in the order the specification gives: door 1, door 2, door 3,
door 4, buff 1, buff 2, ready marker 1, ready marker 2. -/
def objectOrder : List AddObjectArgs :=
  [door1, door2, door3, door4, buff1, buff2, readyMarker1, readyMarker2]

/-- What each `AddObject` call returns when the calls for `objs` are all made, one
after the other, starting on `bg`. -/
def outcomes (AddObject : BG → AddObjectArgs → BG × Bool) : BG → List AddObjectArgs → List Bool
  | _, [] => []
  | bg, a :: rest => (AddObject bg a).2 :: outcomes AddObject (AddObject bg a).1 rest

/-- The battleground after the calls for `objs` are all made, one after the other. -/
def bgAfter (AddObject : BG → AddObjectArgs → BG × Bool) : BG → List AddObjectArgs → BG
  | bg, [] => bg
  | bg, a :: rest => bgAfter AddObject (AddObject bg a).1 rest

/-- The number of calls made when the objects of a list are attempted in order and
the first failure ends the attempts: the leading successes and, when there is one,
the failure that follows them. -/
def attemptCount (results : List Bool) : Nat :=
  min ((results.takeWhile id).length + 1) results.length

/-- An `AddObject` for examples: the battleground is the number of calls made on
it, and the call for the slot of door 3 fails. -/
def failDoor3 (n : Nat) (args : AddObjectArgs) : Nat × Bool :=
  (n + 1, decide (args.type ≠ BG_NA_OBJECT_DOOR_3))

/-- An `AddObject` for examples: the battleground is the number of calls made on
it, and every call succeeds. -/
def alwaysOk (n : Nat) (_args : AddObjectArgs) : Nat × Bool :=
  (n + 1, true)

/-- The condition of `SetupBattleground` as the specification words it: the objects
are attempted in the order of the list and the first failure ends the attempts. The
value is true when an attempt failed. -/
def tryAll (AddObject : BG → AddObjectArgs → BG × Bool) : List AddObjectArgs → Cond BG
  | [] => fun s => (false, s)
  | a :: rest => scOr (notAddObject AddObject a) (tryAll AddObject rest)

end BattlegroundNA

/-! ## Theorems: WaypointMovementGenerator.h -/

/-- C6: the two timing constants have the stated values, `FLIGHT_TRAVEL_UPDATE` is
100 (ms) and `TIMEDIFF_NEXT_WP` is 250 (ms). -/
theorem timing_constants : FLIGHT_TRAVEL_UPDATE = 100 ∧ TIMEDIFF_NEXT_WP = 250 :=
  ⟨rfl, rfl⟩

namespace FlightPathMovementGenerator

variable {Node : Type}

/-- C1: `HasArrived()` is true exactly when the current node index is at least the
length of the path; hence it is true for every index on the empty path and false
at index 0 on a non-empty path. -/
theorem HasArrived_iff (g : FlightPathMovementGenerator Node) :
    (g.HasArrived = true ↔ g.i_currentNode ≥ g.i_path.length) ∧
    (g.i_path = [] → g.HasArrived = true) ∧
    (g.i_path ≠ [] → g.i_currentNode = 0 → g.HasArrived = false) := by
  refine ⟨by simp [HasArrived], ?_, ?_⟩
  · intro h
    simp [HasArrived, h]
  · intro h h0
    have hpos : 0 < g.i_path.length := List.length_pos.mpr h
    have hlt : ¬ g.i_currentNode ≥ g.i_path.length := by omega
    simp only [HasArrived, decide_eq_false_iff_not]
    exact hlt

/-- C1 at concrete states: index 5 on the empty path has arrived, index 0 on a
two-node path has not, index 2 on it has. -/
theorem HasArrived_iff_witness :
    (sample 5 []).HasArrived = true ∧
    (sample 0 [7, 8]).HasArrived = false ∧
    (sample 2 [7, 8]).HasArrived = true :=
  ⟨(HasArrived_iff (sample 5 [])).2.1 rfl,
   (HasArrived_iff (sample 0 [7, 8])).2.2 (by simp [sample]) rfl,
   (HasArrived_iff (sample 2 [7, 8])).1.2 (by decide)⟩

/-- C2 as stated fails: built with start node 1 the generator has an empty path,
so `current_node ≤ path.size()` is false; and built with start node 0 the
invariant holds but `SkipCurrentNode()` breaks it. -/
theorem NodeIndexInvariant_counterexample :
    ¬ NodeIndexInvariant (new 1 : FlightPathMovementGenerator Unit) ∧
    NodeIndexInvariant (new 0 : FlightPathMovementGenerator Unit) ∧
    ¬ NodeIndexInvariant (SkipCurrentNode (new 0 : FlightPathMovementGenerator Unit)).1 := by
  refine ⟨?_, ?_, ?_⟩ <;> simp [NodeIndexInvariant, new, SkipCurrentNode, PathMovementBase.mk0,
    UINT32_MOD]

/-- C2 amended: `0 ≤ current_node` holds in every state; after construction the path
is empty and the index is the start node, so `current_node ≤ path.size()` holds
exactly when the start node is 0; `SkipCurrentNode()` keeps the invariant from
every state that has not arrived (`current_node < path.size()`); from a state where
the invariant holds and the generator has arrived (`current_node = path.size()`),
when `current_node + 1` fits 32 bits, it leaves the path as it was and yields
`current_node = path.size() + 1`, so the invariant no longer holds. -/
theorem NodeIndexInvariant_amended (startNode : Nat) (g : FlightPathMovementGenerator Node) :
    ((new startNode : FlightPathMovementGenerator Node).i_path = [] ∧
      (new startNode : FlightPathMovementGenerator Node).i_currentNode = startNode) ∧
    (NodeIndexInvariant (new startNode : FlightPathMovementGenerator Node) ↔ startNode = 0) ∧
    (0 ≤ g.i_currentNode ∧ 0 ≤ (SkipCurrentNode g).1.i_currentNode) ∧
    (g.HasArrived = false → NodeIndexInvariant (SkipCurrentNode g).1) ∧
    (NodeIndexInvariant g → g.HasArrived = true → g.i_currentNode + 1 < 2 ^ 32 →
      g.i_currentNode = g.i_path.length ∧
      (SkipCurrentNode g).1.i_path = g.i_path ∧
      (SkipCurrentNode g).1.i_currentNode = g.i_path.length + 1 ∧
      (SkipCurrentNode g).1.i_currentNode = (SkipCurrentNode g).1.i_path.length + 1 ∧
      ¬ NodeIndexInvariant (SkipCurrentNode g).1) := by
  refine ⟨⟨rfl, rfl⟩, ?_, ⟨Nat.zero_le _, Nat.zero_le _⟩, ?_, ?_⟩
  · simp [NodeIndexInvariant, new, PathMovementBase.mk0]
  · intro h
    have hlt : g.i_currentNode < g.i_path.length := by
      simpa [HasArrived] using h
    have hmod : (g.i_currentNode + 1) % UINT32_MOD ≤ g.i_currentNode + 1 := Nat.mod_le _ _
    simp only [NodeIndexInvariant, SkipCurrentNode]
    exact ⟨Nat.zero_le _, by omega⟩
  · intro hinv harr hsmall
    have hge : g.i_currentNode ≥ g.i_path.length := by
      simpa [HasArrived] using harr
    have heq : g.i_currentNode = g.i_path.length := Nat.le_antisymm hinv.2 hge
    have hmod : (g.i_currentNode + 1) % UINT32_MOD = g.i_currentNode + 1 :=
      Nat.mod_eq_of_lt hsmall
    have hnew : (SkipCurrentNode g).1.i_currentNode = g.i_path.length + 1 := by
      rw [← heq]
      exact hmod
    have hpath : (SkipCurrentNode g).1.i_path = g.i_path := rfl
    refine ⟨heq, hpath, hnew, by rw [hpath]; exact hnew, ?_⟩
    intro hbroken
    have hle := hbroken.2
    rw [hnew, hpath] at hle
    omega

/-- C2 amended, at concrete states: on a two-node path at index 1 the skip keeps the
invariant, and at index 2 (arrived) it gives index 3 on the same two-node path,
which breaks the invariant. -/
theorem NodeIndexInvariant_amended_witness :
    NodeIndexInvariant (SkipCurrentNode (sample 1 [7, 8])).1 ∧
    (SkipCurrentNode (sample 2 [7, 8])).1.i_currentNode = 2 + 1 ∧
    ¬ NodeIndexInvariant (SkipCurrentNode (sample 2 [7, 8])).1 :=
  ⟨(NodeIndexInvariant_amended 0 (sample 1 [7, 8])).2.2.2.1 (by decide),
   ((NodeIndexInvariant_amended 0 (sample 2 [7, 8])).2.2.2.2
      (by decide) (by decide) (by decide)).2.2.1,
   ((NodeIndexInvariant_amended 0 (sample 2 [7, 8])).2.2.2.2
      (by decide) (by decide) (by decide)).2.2.2.2⟩

/-- C3: `SkipCurrentNode()` makes `GetCurrentNode()` the old value plus one modulo
`2 ^ 32` (the old value plus one when that fits 32 bits), fires no node event, and
leaves the path, the end-grid cache (x, y, map id), the preload target node and the
path-switch queue as they were. -/
theorem SkipCurrentNode_frame (g : FlightPathMovementGenerator Node) :
    (SkipCurrentNode g).1.GetCurrentNode = (g.GetCurrentNode + 1) % 2 ^ 32 ∧
    (g.GetCurrentNode + 1 < 2 ^ 32 →
      (SkipCurrentNode g).1.GetCurrentNode = g.GetCurrentNode + 1) ∧
    (SkipCurrentNode g).2 = [] ∧
    (SkipCurrentNode g).1.GetPath = g.GetPath ∧
    (SkipCurrentNode g).1._endGridX = g._endGridX ∧
    (SkipCurrentNode g).1._endGridY = g._endGridY ∧
    (SkipCurrentNode g).1._endMapId = g._endMapId ∧
    (SkipCurrentNode g).1._preloadTargetNode = g._preloadTargetNode ∧
    (SkipCurrentNode g).1._pointsForPathSwitch = g._pointsForPathSwitch := by
  refine ⟨rfl, ?_, rfl, rfl, rfl, rfl, rfl, rfl, rfl⟩
  intro h
  exact Nat.mod_eq_of_lt h

/-- C3 at a concrete state: from node 3 the skip gives node 4. -/
theorem SkipCurrentNode_frame_witness :
    (SkipCurrentNode (new 3 : FlightPathMovementGenerator Nat)).1.GetCurrentNode = 3 + 1 :=
  (SkipCurrentNode_frame (new 3 : FlightPathMovementGenerator Nat)).2.1 (by decide)

/-- C10: a generator built by `FlightPathMovementGenerator(n)` reports
`GetCurrentNode() = n`, its path is empty, and `HasArrived()` is true, for every
start node `n` (0, the default, included). -/
theorem new_arrived (n : Nat) :
    (new n : FlightPathMovementGenerator Node).GetCurrentNode = n ∧
    (new n : FlightPathMovementGenerator Node).GetPath = [] ∧
    (new n : FlightPathMovementGenerator Node).HasArrived = true ∧
    (new 0 : FlightPathMovementGenerator Node).HasArrived = true := by
  refine ⟨rfl, rfl, ?_, ?_⟩ <;> simp [HasArrived, new, PathMovementBase.mk0]

end FlightPathMovementGenerator

namespace WaypointMovementGenerator

variable {WaypointPath Creature : Type}

/-- C7: whatever the next-move timer held, `StartMoveNow(creature)` calls `StartMove`
exactly once, on the same creature; when `StartMove` is entered the timer is 0 and
`Stopped()` is false, every other member of the generator is as before the call,
and what `StartMoveNow` leaves behind is what that one `StartMove` call left. -/
theorem StartMoveNow_resets_then_starts
    (StartMove : WaypointMovementGenerator WaypointPath → Creature →
      WaypointMovementGenerator WaypointPath × Creature × Bool)
    (g : WaypointMovementGenerator WaypointPath) (creature : Creature) :
    ∃ entry : WaypointMovementGenerator WaypointPath,
      (StartMoveNow StartMove g creature).startMoveCalls = [(entry, creature)] ∧
      entry.i_nextMoveTime.i_expiryTime = 0 ∧
      entry.Stopped = false ∧
      entry.toPathMovementBase = g.toPathMovementBase ∧
      entry.m_isArrivalDone = g.m_isArrivalDone ∧
      entry.path_id = g.path_id ∧
      entry.repeating = g.repeating ∧
      entry.stalled = g.stalled ∧
      (StartMoveNow StartMove g creature).gen = (StartMove entry creature).1 ∧
      (StartMoveNow StartMove g creature).creature = (StartMove entry creature).2.1 :=
  ⟨{ g with i_nextMoveTime := g.i_nextMoveTime.Reset 0 },
    rfl, rfl, by simp [Stopped, TimeTrackerSmall.Passed, TimeTrackerSmall.Reset],
    rfl, rfl, rfl, rfl, rfl, rfl, rfl⟩

end WaypointMovementGenerator

/-! ## Theorems: ChatCommandHelpers.cpp -/

/-- C8: for every handler and every string `s`, `SendErrorMessageToHandler(handler, s)`
makes exactly two calls on the handler, `SendSysMessage(s)` with `s` unchanged and
then `SetSentErrorMessage(true)`; the handler afterwards is the one those two calls
leave, and its sent-error-message flag reads true whatever it was before (the flag
reads back what `SetSentErrorMessage` wrote). -/
theorem SendErrorMessageToHandler_forwards {Handler : Type} (m : ChatHandlerMethods Handler)
    (hflag : ∀ (h : Handler) (b : Bool), m.HasSentErrorMessage (m.SetSentErrorMessage h b) = b)
    (handler : Handler) (s : String) :
    (SendErrorMessageToHandler m handler s).2 =
      [ChatHandlerCall.SendSysMessage s, ChatHandlerCall.SetSentErrorMessage true] ∧
    (SendErrorMessageToHandler m handler s).1 =
      m.SetSentErrorMessage (m.SendSysMessage handler s) true ∧
    m.HasSentErrorMessage (SendErrorMessageToHandler m handler s).1 = true :=
  ⟨rfl, rfl, hflag _ true⟩

/-- C8 on a recording handler whose flag is false and that already holds one
message: the string is appended as one message, unchanged, and the flag is true. -/
theorem SendErrorMessageToHandler_forwards_witness :
    (∀ (h : RecordingHandler) (b : Bool),
      recordingMethods.HasSentErrorMessage (recordingMethods.SetSentErrorMessage h b) = b) ∧
    (SendErrorMessageToHandler recordingMethods
      { sysMessages := ["hello"], sentErrorMessage := false } "no such command").1 =
      { sysMessages := ["hello", "no such command"], sentErrorMessage := true } ∧
    recordingMethods.HasSentErrorMessage (SendErrorMessageToHandler recordingMethods
      { sysMessages := ["hello"], sentErrorMessage := false } "no such command").1 = true :=
  ⟨fun _ _ => rfl,
   (SendErrorMessageToHandler_forwards recordingMethods (fun _ _ => rfl)
      { sysMessages := ["hello"], sentErrorMessage := false } "no such command").2.1,
   (SendErrorMessageToHandler_forwards recordingMethods (fun _ _ => rfl)
      { sysMessages := ["hello"], sentErrorMessage := false } "no such command").2.2⟩

/-! ## Theorems: BattlegroundNA.cpp -/

namespace BattlegroundNA

/-- C4: for every initial list `L`, `FillInitialWorldStates` hands the parent the
packet `L` followed by the one entry `(WORLD_STATE_BATTLEGROUND_NA_ARENA_SHOW, 1)`
and returns what the parent returns; with a parent that only appends, the result
is `L`, then that one entry, then the entries the parent appends. -/
theorem FillInitialWorldStates_order {Key : Type} (WORLD_STATE_BATTLEGROUND_NA_ARENA_SHOW : Key)
    (Arena_FillInitialWorldStates : InitWorldStates Key → InitWorldStates Key)
    (appended : InitWorldStates Key → List (WorldStateInfo Key))
    (happend : ∀ p, (Arena_FillInitialWorldStates p).Worldstates = p.Worldstates ++ appended p)
    (L : List (WorldStateInfo Key)) :
    FillInitialWorldStates WORLD_STATE_BATTLEGROUND_NA_ARENA_SHOW Arena_FillInitialWorldStates
        { Worldstates := L } =
      Arena_FillInitialWorldStates
        { Worldstates := L ++ [{ VariableID := WORLD_STATE_BATTLEGROUND_NA_ARENA_SHOW, Value := 1 }] } ∧
    (FillInitialWorldStates WORLD_STATE_BATTLEGROUND_NA_ARENA_SHOW Arena_FillInitialWorldStates
        { Worldstates := L }).Worldstates =
      L ++ [{ VariableID := WORLD_STATE_BATTLEGROUND_NA_ARENA_SHOW, Value := 1 }] ++
        appended
          { Worldstates := L ++ [{ VariableID := WORLD_STATE_BATTLEGROUND_NA_ARENA_SHOW, Value := 1 }] } :=
  ⟨rfl, happend _⟩

/-- C4 with keys that are numbers, the arena key 10, a parent that appends the two
entries `(20, 3)` and `(21, 2)`, and `L = [(1, 5), (2, 6)]`. -/
theorem FillInitialWorldStates_order_witness :
    (FillInitialWorldStates (10 : Nat)
        (fun p => { p with Worldstates := p.Worldstates ++ [⟨20, 3⟩, ⟨21, 2⟩] })
        { Worldstates := [⟨1, 5⟩, ⟨2, 6⟩] }).Worldstates =
      [⟨1, 5⟩, ⟨2, 6⟩] ++ [⟨10, 1⟩] ++ [⟨20, 3⟩, ⟨21, 2⟩] :=
  (FillInitialWorldStates_order (10 : Nat)
    (fun p => { p with Worldstates := p.Worldstates ++ [⟨20, 3⟩, ⟨21, 2⟩] })
    (fun _ => [⟨20, 3⟩, ⟨21, 2⟩]) (fun _ => rfl) [⟨1, 5⟩, ⟨2, 6⟩]).2

/-- The `switch` of `HandleAreaTrigger` as one test on the trigger id. -/
theorem HandleAreaTrigger_eq_ite {Status : Type} [DecidableEq Status]
    (STATUS_IN_PROGRESS status : Status) (player : Player) (trigger : Nat) :
    HandleAreaTrigger STATUS_IN_PROGRESS status player trigger =
      if status = STATUS_IN_PROGRESS ∧ (trigger = 4917 ∨ trigger = 5006 ∨ trigger = 5008) then
        [{ x := 4054.15, y := 2923.7, z := 13.4, orientation := player.orientation }]
      else [] := by
  unfold HandleAreaTrigger
  by_cases hs : status = STATUS_IN_PROGRESS
  · simp only [ne_eq, hs, not_true_eq_false, if_false, true_and]
    split <;> simp_all
  · simp [hs]

/-- C5: `HandleAreaTrigger` teleports the player exactly when the status is
`STATUS_IN_PROGRESS` and the trigger is 4917, 5006 or 5008; it then makes one
`NearTeleportTo` call, to (4054.15, 2923.7, 13.4) with the orientation the player
has, the same for the three ids; for every other trigger (4536 and 4537 among them)
and for every other status it makes no call. -/
theorem HandleAreaTrigger_teleports {Status : Type} [DecidableEq Status]
    (STATUS_IN_PROGRESS status : Status) (player : Player) (trigger : Nat) :
    (HandleAreaTrigger STATUS_IN_PROGRESS status player trigger ≠ [] ↔
      status = STATUS_IN_PROGRESS ∧ (trigger = 4917 ∨ trigger = 5006 ∨ trigger = 5008)) ∧
    (status = STATUS_IN_PROGRESS ∧ (trigger = 4917 ∨ trigger = 5006 ∨ trigger = 5008) →
      HandleAreaTrigger STATUS_IN_PROGRESS status player trigger =
        [{ x := 4054.15, y := 2923.7, z := 13.4, orientation := player.orientation }]) ∧
    (¬ (status = STATUS_IN_PROGRESS ∧ (trigger = 4917 ∨ trigger = 5006 ∨ trigger = 5008)) →
      HandleAreaTrigger STATUS_IN_PROGRESS status player trigger = []) ∧
    HandleAreaTrigger STATUS_IN_PROGRESS status player 4536 = [] ∧
    HandleAreaTrigger STATUS_IN_PROGRESS status player 4537 = [] := by
  refine ⟨?_, ?_, ?_, ?_, ?_⟩
  · rw [HandleAreaTrigger_eq_ite]
    by_cases h : status = STATUS_IN_PROGRESS ∧ (trigger = 4917 ∨ trigger = 5006 ∨ trigger = 5008)
    · simp only [h, if_true]
      simp
    · simp only [h, if_false]
      simp
  · intro h
    rw [HandleAreaTrigger_eq_ite, if_pos h]
  · intro h
    rw [HandleAreaTrigger_eq_ite, if_neg h]
  · rw [HandleAreaTrigger_eq_ite, if_neg]
    rintro ⟨-, h | h | h⟩ <;> exact absurd h (by decide)
  · rw [HandleAreaTrigger_eq_ite, if_neg]
    rintro ⟨-, h | h | h⟩ <;> exact absurd h (by decide)

/-- C5 at concrete inputs, with statuses numbered and 3 for in progress: a player
facing 1.5 is sent to the fixed point by trigger 5006 while in progress, and is not
moved by the same trigger under status 2 nor by trigger 4536 while in progress. -/
theorem HandleAreaTrigger_teleports_witness :
    HandleAreaTrigger (3 : Nat) 3 { orientation := 1.5 } 5006 =
      [{ x := 4054.15, y := 2923.7, z := 13.4, orientation := 1.5 }] ∧
    HandleAreaTrigger (3 : Nat) 2 { orientation := 1.5 } 5006 = [] ∧
    HandleAreaTrigger (3 : Nat) 3 { orientation := 1.5 } 4536 = [] :=
  ⟨(HandleAreaTrigger_teleports (3 : Nat) 3 { orientation := 1.5 } 5006).2.1
      ⟨rfl, Or.inr (Or.inl rfl)⟩,
   (HandleAreaTrigger_teleports (3 : Nat) 2 { orientation := 1.5 } 5006).2.2.1
      (fun h => absurd h.1 (by decide)),
   (HandleAreaTrigger_teleports (3 : Nat) 3 { orientation := 1.5 } 4536).2.2.2.1⟩

variable {BG : Type}

/-- The operator `||` may be regrouped: both groupings evaluate the operands left to
right and stop at the first true one. -/
theorem scOr_assoc (a b c : Cond BG) : scOr (scOr a b) c = scOr a (scOr b c) := by
  funext s
  simp only [scOr]
  by_cases h : (a s).1 = true
  · simp [h]
  · simp [h]

/-- A last operand that is false and does nothing may be dropped. -/
theorem scOr_false (a : Cond BG) : scOr a (fun s => (false, s)) = a := by
  funext s
  simp only [scOr]
  by_cases h : (a s).1 = true
  · simp [h]
  · have hf : (a s).1 = false := by simpa using h
    rw [if_neg h]
    exact Prod.ext hf.symm rfl

/-- The condition written in the source is the in-order attempt of `objectOrder`. -/
theorem condition_eq_tryAll (AddObject : BG → AddObjectArgs → BG × Bool) :
    scOr (scOr (scOr (scOr (scOr (scOr (scOr (notAddObject AddObject door1)
      (notAddObject AddObject door2)) (notAddObject AddObject door3))
      (notAddObject AddObject door4)) (notAddObject AddObject buff1))
      (notAddObject AddObject buff2)) (notAddObject AddObject readyMarker1))
      (notAddObject AddObject readyMarker2) = tryAll AddObject objectOrder := by
  simp only [objectOrder, tryAll, scOr_assoc, scOr_false]

/-- Unfolding of `attemptCount` on a leading success. -/
theorem attemptCount_true (rest : List Bool) :
    attemptCount (true :: rest) = attemptCount rest + 1 := by
  simp only [attemptCount, List.takeWhile_cons, id, if_true, List.length_cons]
  omega

/-- Unfolding of `attemptCount` on a leading failure. -/
theorem attemptCount_false (rest : List Bool) : attemptCount (false :: rest) = 1 := by
  simp [attemptCount, List.takeWhile_cons]

/-- The in-order attempt of any list of objects: its value, and the state it leaves. -/
theorem tryAll_spec (AddObject : BG → AddObjectArgs → BG × Bool) (l : List AddObjectArgs) :
    ∀ s : SetupState BG,
      tryAll AddObject l s =
        (!(outcomes AddObject s.bg l).all id,
          { bg := bgAfter AddObject s.bg (l.take (attemptCount (outcomes AddObject s.bg l)))
            attempts := s.attempts ++
              (l.zip (outcomes AddObject s.bg l)).take (attemptCount (outcomes AddObject s.bg l))
            errors := s.errors }) := by
  induction l with
  | nil =>
    intro s
    cases s
    simp [tryAll, outcomes, bgAfter, attemptCount]
  | cons a rest ih =>
    intro s
    simp only [tryAll, scOr, notAddObject, outcomes]
    cases h : (AddObject s.bg a).2 with
    | false =>
      simp [attemptCount_false, bgAfter]
    | true =>
      simp only [Bool.not_true, Bool.false_eq_true, if_false, ih, attemptCount_true,
        List.take_succ_cons, bgAfter, List.zip_cons_cons, List.all_cons, id, Bool.true_and,
        List.append_assoc, List.singleton_append]

/-- The list `outcomes` has one entry for each object. -/
theorem outcomes_length (AddObject : BG → AddObjectArgs → BG × Bool) (l : List AddObjectArgs) :
    ∀ bg : BG, (outcomes AddObject bg l).length = l.length := by
  induction l with
  | nil => intro bg; rfl
  | cons a rest ih => intro bg; simp [outcomes, ih]

/-- When every result is a success, all the objects are attempted. -/
theorem attemptCount_all (res : List Bool) (h : res.all id = true) :
    attemptCount res = res.length := by
  induction res with
  | nil => rfl
  | cons b rest ih =>
    cases b with
    | false => simp at h
    | true =>
      have hrest : rest.all id = true := by simpa using h
      rw [attemptCount_true, ih hrest, List.length_cons]

/-- When some result is a failure, the attempts are successes followed by one failure. -/
theorem attempts_end_in_failure (res : List Bool) :
    ∀ l : List AddObjectArgs, l.length = res.length → res.all id = false →
      ∃ (pre : List (AddObjectArgs × Bool)) (a : AddObjectArgs),
        (l.zip res).take (attemptCount res) = pre ++ [(a, false)] ∧ ∀ p ∈ pre, p.2 = true := by
  induction res with
  | nil => intro l _ h; simp at h
  | cons b rest ih =>
    intro l hl h
    cases l with
    | nil => simp at hl
    | cons a l1 =>
      have hl1 : l1.length = rest.length := by simpa using hl
      cases b with
      | false =>
        exact ⟨[], a, by simp [attemptCount_false], by simp⟩
      | true =>
        have hrest : rest.all id = false := by simpa using h
        obtain ⟨pre, a1, heq, hpre⟩ := ih l1 hl1 hrest
        refine ⟨(a, true) :: pre, a1, ?_, ?_⟩
        · simp [attemptCount_true, List.take_succ_cons, heq]
        · intro p hp
          rcases List.mem_cons.mp hp with rfl | hp
          · rfl
          · exact hpre p hp

/-- C9: whatever the `AddObject` calls return (the returns may depend on the
battleground the earlier calls left), `SetupBattleground()` returns true exactly
when all eight succeed; the calls made are the leading ones of door 1, door 2,
door 3, door 4, buff 1, buff 2, ready marker 1, ready marker 2, in that order, up
to and including the first that fails; when it returns true all eight were made,
and when it returns false the last call made failed, every earlier one succeeded
and no later object was attempted. -/
theorem SetupBattleground_short_circuit (AddObject : BG → AddObjectArgs → BG × Bool) (bg : BG) :
    (outcomes AddObject bg objectOrder).length = 8 ∧
    ((SetupBattleground AddObject bg).1 = true ↔
      ∀ b ∈ outcomes AddObject bg objectOrder, b = true) ∧
    (SetupBattleground AddObject bg).2.attempts =
      (objectOrder.zip (outcomes AddObject bg objectOrder)).take
        (attemptCount (outcomes AddObject bg objectOrder)) ∧
    (SetupBattleground AddObject bg).2.bg =
      bgAfter AddObject bg (objectOrder.take (attemptCount (outcomes AddObject bg objectOrder))) ∧
    ((SetupBattleground AddObject bg).1 = true →
      (SetupBattleground AddObject bg).2.attempts.map Prod.fst = objectOrder ∧
      ∀ p ∈ (SetupBattleground AddObject bg).2.attempts, p.2 = true) ∧
    ((SetupBattleground AddObject bg).1 = false →
      ∃ (pre : List (AddObjectArgs × Bool)) (a : AddObjectArgs),
        (SetupBattleground AddObject bg).2.attempts = pre ++ [(a, false)] ∧
        (∀ p ∈ pre, p.2 = true) ∧
        (pre ++ [(a, false)]).map Prod.fst = objectOrder.take (pre.length + 1)) := by
  have hlen : (outcomes AddObject bg objectOrder).length = 8 := by
    rw [outcomes_length]; rfl
  have hrun : SetupBattleground AddObject bg =
      if (outcomes AddObject bg objectOrder).all id = true then
        (true, (tryAll AddObject objectOrder { bg := bg, attempts := [], errors := [] }).2)
      else
        (false,
          { (tryAll AddObject objectOrder { bg := bg, attempts := [], errors := [] }).2 with
            errors := (tryAll AddObject objectOrder
              { bg := bg, attempts := [], errors := [] }).2.errors ++
                ["BatteGroundNA: Failed to spawn some object!"] }) := by
    simp only [SetupBattleground, condition_eq_tryAll]
    rw [tryAll_spec]
    cases (outcomes AddObject bg objectOrder).all id <;> simp
  have hatt : (SetupBattleground AddObject bg).2.attempts =
      (objectOrder.zip (outcomes AddObject bg objectOrder)).take
        (attemptCount (outcomes AddObject bg objectOrder)) := by
    rw [hrun, tryAll_spec]
    cases (outcomes AddObject bg objectOrder).all id <;> simp
  have hbg : (SetupBattleground AddObject bg).2.bg =
      bgAfter AddObject bg
        (objectOrder.take (attemptCount (outcomes AddObject bg objectOrder))) := by
    rw [hrun, tryAll_spec]
    cases (outcomes AddObject bg objectOrder).all id <;> simp
  have hret : (SetupBattleground AddObject bg).1 = (outcomes AddObject bg objectOrder).all id := by
    rw [hrun]
    cases (outcomes AddObject bg objectOrder).all id <;> simp
  have hfst : (objectOrder.zip (outcomes AddObject bg objectOrder)).map Prod.fst =
      objectOrder :=
    List.map_fst_zip _ _ (by rw [hlen]; exact Nat.le_refl 8)
  refine ⟨hlen, ?_, hatt, hbg, ?_, ?_⟩
  · rw [hret, List.all_eq_true]
    simp
  · intro h
    rw [hret] at h
    have hall : ∀ b ∈ outcomes AddObject bg objectOrder, b = true := by
      simpa [List.all_eq_true] using h
    have hzip : (objectOrder.zip (outcomes AddObject bg objectOrder)).length = 8 := by
      rw [List.length_zip, hlen]; rfl
    rw [hatt, attemptCount_all _ h, hlen, List.take_of_length_le (by omega)]
    refine ⟨hfst, ?_⟩
    · intro p hp
      exact hall p.2 (List.of_mem_zip hp).2
  · intro h
    rw [hret] at h
    obtain ⟨pre, a, heq, hpre⟩ :=
      attempts_end_in_failure (outcomes AddObject bg objectOrder) objectOrder
        (by rw [hlen]; rfl) h
    refine ⟨pre, a, by rw [hatt, heq], hpre, ?_⟩
    have hcount : attemptCount (outcomes AddObject bg objectOrder) = pre.length + 1 := by
      have hl := congrArg List.length heq
      simp only [List.length_take, List.length_zip, List.length_append, List.length_singleton,
        hlen] at hl
      have hle : attemptCount (outcomes AddObject bg objectOrder) ≤ 8 := by
        unfold attemptCount; rw [hlen]; exact Nat.min_le_right _ _
      have h8 : objectOrder.length = 8 := rfl
      rw [h8] at hl
      omega
    rw [← heq, hcount, List.map_take, hfst]

/-- C9 at concrete inputs: when the call for door 3 fails, three calls are made and
the battleground has seen three calls; when every call succeeds the result is
true. -/
theorem SetupBattleground_short_circuit_witness :
    (SetupBattleground failDoor3 0).2.attempts =
      [(door1, true), (door2, true), (door3, false)] ∧
    (SetupBattleground failDoor3 0).2.bg = 3 ∧
    (SetupBattleground alwaysOk 0).1 = true :=
  ⟨(SetupBattleground_short_circuit failDoor3 0).2.2.1,
   (SetupBattleground_short_circuit failDoor3 0).2.2.2.1,
   (SetupBattleground_short_circuit alwaysOk 0).2.1.2 (by decide)⟩

end BattlegroundNA

end Acore
